import Mathlib

/-!
Verification development for the tkinter control shell `src/gui.py` of the
web-scraping-with-blockchain-storage repository.  The file shallowly embeds
the shell state that the GUI constructor builds (widget variables, button
enablement, log view, blockchain view) together with the operator-action
handlers.  The shown portion of `gui.py` ends inside `create_settings_tab`
(line 228), so the handler bodies (`start_scraping`, `stop_scraping`,
`refresh_blockchain_data`, `generate_report`, `export_data`, `save_logs`,
`show_search_dialog`) are absent from the shown source; only their
button-to-method wiring appears.  Those bodies are modelled from the
specification, as marked on each definition.  Widget construction and
defaults (gui.py lines 21-228) are embedded from the source.
-/

set_option autoImplicit false

namespace WebScrapingGUI

/-- Session state of the shell.  The shown source keeps a boolean flag
`self.scraping_active` (gui.py line 30); the specification refines it to the
enum `ScrapingSessionState = Idle | Running | Stopping` owned by the shell. -/
inductive SessionState where
  | Idle
  | Running
  | Stopping
deriving DecidableEq, Repr

/-- A block record as displayed by the blockchain tree view: the columns of
`self.blockchain_tree` are Index, Timestamp, Hash, Previous Hash, Data Type
(gui.py lines 176-177). -/
structure BlockRecord where
  index : Nat
  timestamp : String
  hash : String
  previousHash : String
  dataType : String
deriving DecidableEq, Repr

/-- A scrape request as dispatched to the engine: url and maxPages.  The
specification calls it ScrapeRequest. -/
structure ScrapeRequest where
  url : String
  maxPages : Int
deriving DecidableEq, Repr

/-- The observable state of the control shell: the tk variables and widget
contents built by `create_widgets` (gui.py lines 54-228) plus the session
bookkeeping of `__init__` (gui.py lines 29-31).  `lastRequest` records the
most recent request dispatched to the engine, and `runningThreads` counts
the auxiliary background execution paths (the source keeps
`self.scraping_thread`, gui.py line 31). -/
structure ShellState where
  sessionState : SessionState
  startEnabled : Bool
  stopEnabled : Bool
  url_var : String
  max_pages_var : String
  auto_scroll_var : Bool
  log_text : List String
  blockchain_info : String
  blockchain_tree : List BlockRecord
  analysis_text : String
  runningThreads : Nat
  lastRequest : Option ScrapeRequest
deriving DecidableEq, Repr

/-- The shell state right after construction, read off the shown source:
`scraping_active = False` (line 30, i.e. Idle), the Start button is created
enabled and the Stop button with `state=tk.DISABLED` (lines 102-107),
`url_var` defaults to "https://example.com" (line 88), `max_pages_var`
defaults to "10" (line 94), `auto_scroll_var` defaults to True (line 155),
`blockchain_info` defaults to "Blockchain not initialized" (line 168), and
the log view, tree view and analysis view start empty. -/
def initState : ShellState where
  sessionState := SessionState.Idle
  startEnabled := true
  stopEnabled := false
  url_var := "https://example.com"
  max_pages_var := "10"
  auto_scroll_var := true
  log_text := []
  blockchain_info := "Blockchain not initialized"
  blockchain_tree := []
  analysis_text := ""
  runningThreads := 0
  lastRequest := none

/-- Typing into the Max Pages entry.  The widget is a plain `ttk.Entry`
bound to a `tk.StringVar` (gui.py lines 94-96): it imposes no numeric
constraint, so any string the operator types becomes the variable value
verbatim. -/
def setMaxPagesVar (v : String) (s : ShellState) : ShellState :=
  { s with max_pages_var := v }

/-- Typing into the Target URL entry, a plain `ttk.Entry` bound to a
`tk.StringVar` (gui.py lines 88-90). -/
def setUrlVar (v : String) (s : ShellState) : ShellState :=
  { s with url_var := v }

/-- Error taxonomy of the shell boundary, from the specification:
ValidationError (bad operator input), EngineError (backend failure),
IOError (export or save failure). -/
inductive ShellError where
  | validationErr (msg : String)
  | engineErr (msg : String)
  | ioFailure (msg : String)
deriving DecidableEq, Repr

/-- The user-visible message of a shell error, as shown in a notice. -/
def ShellError.message : ShellError → String
  | ShellError.validationErr m => "ValidationError: " ++ m
  | ShellError.engineErr m => "EngineError: " ++ m
  | ShellError.ioFailure m => "IOError: " ++ m

/-- Value of a decimal digit sequence. -/
def digitsToNat (l : List Char) : Nat :=
  l.foldl (fun n c => n * 10 + (c.toNat - 48)) 0

/-- Modelled from the spec: the parse of the Max Pages entry text performed
inside the missing handler body `start_scraping`.  The specification
requires maxPages to be validated as an integer; a string is an integer
when it is one or more decimal digits, optionally preceded by a minus
sign. -/
def parseInt (s : String) : Option Int :=
  match s.data with
  | [] => none
  | '-' :: rest =>
    if rest ≠ [] ∧ rest.all Char.isDigit then
      some (-(Int.ofNat (digitsToNat rest)))
    else none
  | l =>
    if l.all Char.isDigit then some (Int.ofNat (digitsToNat l)) else none

/-- Modelled from the spec: the body of `start_scraping`, whose wiring to
the Start button is at gui.py lines 102-104 but whose body lies beyond the
shown source.  Per the specification: while the session state is not Idle
the call is a no-op (Start is disabled); an empty url or a maxPages that is
not a positive integer fails with ValidationError and leaves the state
unchanged; on success the state transitions Idle to Running, Start is
disabled, Stop is enabled, a session-started log line is appended, the
request is dispatched to the engine, and one background execution path is
launched. -/
def start_scraping (s : ShellState) : Except ShellError (ShellState × List String) :=
  if s.sessionState ≠ SessionState.Idle then Except.ok (s, [])
  else if s.url_var = "" then
    Except.error (ShellError.validationErr "url is empty")
  else
    match parseInt s.max_pages_var with
    | none =>
      Except.error (ShellError.validationErr "maxPages is not a positive integer")
    | some n =>
      if n ≤ 0 then
        Except.error (ShellError.validationErr "maxPages is not a positive integer")
      else
        Except.ok
          ({ s with
              sessionState := SessionState.Running
              startEnabled := false
              stopEnabled := true
              log_text := s.log_text ++ ["session started"]
              runningThreads := s.runningThreads + 1
              lastRequest := some { url := s.url_var, maxPages := n } }, [])

/-- Modelled from the spec: the body of `stop_scraping`, wired to the Stop
button at gui.py lines 106-108.  Valid only when the state is Running, in
which case it signals the engine and transitions to Stopping; in any other
state it raises no error and changes nothing. -/
def stop_scraping (s : ShellState) : Except ShellError (ShellState × List String) :=
  if s.sessionState = SessionState.Running then
    Except.ok
      ({ s with sessionState := SessionState.Stopping, stopEnabled := false }, [])
  else Except.ok (s, [])

/-- Completion signal delivered by the engine: success with a summary or an
error with a message. -/
inductive EngineOutcome where
  | success (summary : String)
  | failure (msg : String)
deriving DecidableEq, Repr

/-- Modelled from the spec: the completion callback.  It transitions the
state to Idle regardless of outcome, re-enables Start, disables Stop, and
joins or discards the background execution path; on an error outcome it
surfaces a non-blocking notice with the error message and returns normally
(the shell does not crash). -/
def onEngineFinished (out : EngineOutcome) (s : ShellState) : ShellState × List String :=
  let s1 := { s with
      sessionState := SessionState.Idle
      startEnabled := true
      stopEnabled := false
      runningThreads := s.runningThreads - 1 }
  match out with
  | EngineOutcome.success _ => (s1, [])
  | EngineOutcome.failure m => (s1, ["EngineError: " ++ m])

/-- Modelled from the spec: the log callback.  Each delivered line is
appended to the log view (`self.log_text`, gui.py lines 142-143) in arrival
order. -/
def onEngineLog (line : String) (s : ShellState) : ShellState :=
  { s with log_text := s.log_text ++ [line] }

/-- Delivery of a whole sequence of log lines, one `onEngineLog` call per
line, in the order the sequence lists them (the arrival order). -/
def deliverLogs (lines : List String) (s : ShellState) : ShellState :=
  lines.foldl (fun acc l => onEngineLog l acc) s

/-- The ledger side of the engine as seen by the shell: either no ledger
exists yet or a current snapshot of block records is available. -/
structure Engine where
  ledger : Option (List BlockRecord)
deriving DecidableEq, Repr

/-- The external collaborators of a handler invocation: the engine, whether
the operator-chosen export destination is writable, and the text the engine
returns for a report request (none models a backend failure). -/
structure Env where
  engine : Engine
  destWritable : Bool
  reportResult : Option String
deriving DecidableEq, Repr

/-- Modelled from the spec: the body of `refresh_blockchain_data`, wired to
the Refresh button at gui.py lines 195-196.  It requests the ledger
snapshot and replaces the displayed rows wholesale; when the engine has no
ledger yet it fails silently into the unavailable display state, the
`blockchain_info` text "Blockchain not initialized" of gui.py line 168. -/
def refresh_blockchain_data (e : Engine) (s : ShellState) : ShellState :=
  match e.ledger with
  | none => { s with blockchain_info := "Blockchain not initialized" }
  | some recs =>
    { s with
        blockchain_tree := recs
        blockchain_info := "Total blocks: " ++ toString recs.length }

/-- Modelled from the spec: the body of `generate_report`, wired at gui.py
lines 110-111.  It forwards to the engine and renders the returned text
verbatim into the analysis view; a backend failure is an EngineError. -/
def generate_report (env : Env) (s : ShellState) :
    Except ShellError (ShellState × List String) :=
  match env.reportResult with
  | some text => Except.ok ({ s with analysis_text := text }, [])
  | none => Except.error (ShellError.engineErr "report generation failed")

/-- Modelled from the spec: the body of `export_data`, wired at gui.py
lines 113-114.  It writes the currently displayed data verbatim to an
operator-chosen destination; an unwritable destination is an IOError and
the shell state is unaffected. -/
def export_data (env : Env) (s : ShellState) :
    Except ShellError (ShellState × List String) :=
  if env.destWritable then Except.ok (s, [])
  else Except.error (ShellError.ioFailure "destination is not writable")

/-- Modelled from the spec: the body of `save_logs`, wired at gui.py lines
151-152.  It writes the current log verbatim; an unwritable destination is
an IOError and the shell state is unaffected. -/
def save_logs (env : Env) (s : ShellState) :
    Except ShellError (ShellState × List String) :=
  if env.destWritable then Except.ok (s, [])
  else Except.error (ShellError.ioFailure "destination is not writable")

/-- Modelled from the spec: the body of `show_search_dialog`, wired at
gui.py lines 116-117.  Opening the dialog changes no shell state. -/
def show_search_dialog (s : ShellState) :
    Except ShellError (ShellState × List String) :=
  Except.ok (s, [])

/-- The operator actions of the control panel and log tab that the claims
range over: start, stop, report, export, save, refresh, search. -/
inductive Action where
  | start
  | stop
  | report
  | exportData
  | saveLogs
  | refresh
  | search
deriving DecidableEq, Repr

/-- The raw handler of each operator action, before the shell boundary:
it either succeeds with a new state and notices, or signals a ShellError. -/
def rawHandler : Action → Env → ShellState → Except ShellError (ShellState × List String)
  | Action.start, _, s => start_scraping s
  | Action.stop, _, s => stop_scraping s
  | Action.report, env, s => generate_report env s
  | Action.exportData, env, s => export_data env s
  | Action.saveLogs, env, s => save_logs env s
  | Action.refresh, env, s => Except.ok (refresh_blockchain_data env.engine s, [])
  | Action.search, _, s => show_search_dialog s

/-- Modelled from the spec: the shell boundary.  Every error a handler
raises is caught here and converted into a user-visible notice, the shell
state is left as it was, and the event loop continues; no error propagates
out of a dispatch. -/
def dispatch (a : Action) (env : Env) (s : ShellState) : ShellState × List String :=
  match rawHandler a env s with
  | Except.ok r => r
  | Except.error e => (s, [e.message])

/-- An event processed by the event loop of the shell: an operator action
(together with the environment it runs against), an edit of one of the two
entry widgets, a log delivery, or an engine completion signal. -/
inductive Event where
  | act (a : Action) (env : Env)
  | editUrl (v : String)
  | editMaxPages (v : String)
  | engineLog (line : String)
  | engineDone (out : EngineOutcome)
deriving DecidableEq, Repr

/-- One step of the event loop. -/
def step (ev : Event) (s : ShellState) : ShellState :=
  match ev with
  | Event.act a env => (dispatch a env s).1
  | Event.editUrl v => setUrlVar v s
  | Event.editMaxPages v => setMaxPagesVar v s
  | Event.engineLog l => onEngineLog l s
  | Event.engineDone out => (onEngineFinished out s).1

/-- The reachable state after processing a sequence of events from the
freshly constructed shell. -/
def run (evs : List Event) : ShellState :=
  evs.foldl (fun s ev => step ev s) initState

/-- The session invariant: the number of live background scraping paths is
zero when the session state is Idle and one otherwise, so at most one
scraping session is ever active. -/
def sessionInv (s : ShellState) : Prop :=
  s.runningThreads = (if s.sessionState = SessionState.Idle then 0 else 1)

/-- A concrete environment used by witnesses: no ledger yet, a writable
destination, a report text available. -/
def env0 : Env where
  engine := { ledger := none }
  destWritable := true
  reportResult := some "report"

/-- A concrete trace: the operator presses Start on the freshly constructed
shell, whose default inputs are valid, so the session becomes Running. -/
def demoTrace : List Event := [Event.act Action.start env0]

/-- A concrete shell state with a session already Running and an empty url,
obtained from the constructed state by overriding those two fields. -/
def runningEmptyUrl : ShellState :=
  { initState with sessionState := SessionState.Running, url_var := "" }

/-- A concrete Idle shell state whose url field is empty. -/
def idleEmptyUrl : ShellState := { initState with url_var := "" }

/-! ### Helper lemmas -/

/-- Case analysis of `start_scraping`: the call is a no-op, or it fails
with a ValidationError, or the state was Idle with valid inputs and the
session starts. -/
theorem start_scraping_cases (s : ShellState) :
    start_scraping s = Except.ok (s, []) ∨
    (∃ m, start_scraping s = Except.error (ShellError.validationErr m)) ∨
    (s.sessionState = SessionState.Idle ∧ ∃ n : Int, 0 < n ∧
      parseInt s.max_pages_var = some n ∧ s.url_var ≠ "" ∧
      start_scraping s =
        Except.ok ({ s with
            sessionState := SessionState.Running
            startEnabled := false
            stopEnabled := true
            log_text := s.log_text ++ ["session started"]
            runningThreads := s.runningThreads + 1
            lastRequest := some { url := s.url_var, maxPages := n } }, [])) := by
  by_cases h1 : s.sessionState = SessionState.Idle
  · by_cases h2 : s.url_var = ""
    · refine Or.inr (Or.inl ⟨"url is empty", ?_⟩)
      unfold start_scraping
      rw [if_neg (by simp [h1]), if_pos h2]
    · cases hp : parseInt s.max_pages_var with
      | none =>
        refine Or.inr (Or.inl ⟨"maxPages is not a positive integer", ?_⟩)
        unfold start_scraping
        rw [if_neg (by simp [h1]), if_neg h2]
        simp only [hp]
      | some n =>
        by_cases h3 : n ≤ 0
        · refine Or.inr (Or.inl ⟨"maxPages is not a positive integer", ?_⟩)
          unfold start_scraping
          rw [if_neg (by simp [h1]), if_neg h2]
          simp only [hp]
          rw [if_pos h3]
        · refine Or.inr (Or.inr ⟨h1, n, by omega, rfl, h2, ?_⟩)
          unfold start_scraping
          rw [if_neg (by simp [h1]), if_neg h2]
          simp only [hp]
          rw [if_neg h3]
  · refine Or.inl ?_
    unfold start_scraping
    rw [if_pos (by simp [h1])]

/-- Dispatching Start when the raw handler signals an error: the state is
returned unchanged together with the error notice. -/
theorem dispatch_start_of_error (env : Env) (s : ShellState) (e : ShellError)
    (h : start_scraping s = Except.error e) :
    dispatch Action.start env s = (s, [e.message]) := by
  simp [dispatch, rawHandler, h]

/-- The state after dispatching Start is either unchanged or, when the
state was Idle, the started state with one more background path. -/
theorem dispatch_start_state (env : Env) (s : ShellState) :
    (dispatch Action.start env s).1 = s ∨
    (s.sessionState = SessionState.Idle ∧
      (dispatch Action.start env s).1.sessionState = SessionState.Running ∧
      (dispatch Action.start env s).1.runningThreads = s.runningThreads + 1) := by
  rcases start_scraping_cases s with h | ⟨m, h⟩ | ⟨hIdle, n, hn, hp, hu, h⟩
  · exact Or.inl (by simp [dispatch, rawHandler, h])
  · exact Or.inl (by simp [dispatch, rawHandler, h])
  · exact Or.inr ⟨hIdle, by simp [dispatch, rawHandler, h],
      by simp [dispatch, rawHandler, h]⟩

/-- Every event-loop step preserves the session invariant. -/
theorem step_preserves_sessionInv (ev : Event) (s : ShellState)
    (h : sessionInv s) : sessionInv (step ev s) := by
  unfold sessionInv at h ⊢
  cases ev with
  | act a env =>
    cases a with
    | start =>
      rcases dispatch_start_state env s with heq | ⟨hIdle, hrun, hthr⟩
      · simpa [step, heq] using h
      · have h0 : s.runningThreads = 0 := by
          rw [h, hIdle]
          simp
        simp only [step, hthr, hrun, h0]
        simp
    | stop =>
      by_cases hr : s.sessionState = SessionState.Running
      · have hs : stop_scraping s =
            Except.ok ({ s with sessionState := SessionState.Stopping, stopEnabled := false }, []) := by
          unfold stop_scraping
          rw [if_pos hr]
        simp [step, dispatch, rawHandler, hs]
        rw [h, hr]
        simp
      · have hs : stop_scraping s = Except.ok (s, []) := by
          unfold stop_scraping
          rw [if_neg hr]
        simpa [step, dispatch, rawHandler, hs] using h
    | report =>
      cases hrep : env.reportResult <;>
        simpa [step, dispatch, rawHandler, generate_report, hrep,
          ShellError.message] using h
    | exportData =>
      by_cases hw : env.destWritable <;>
        simpa [step, dispatch, rawHandler, export_data, hw,
          ShellError.message] using h
    | saveLogs =>
      by_cases hw : env.destWritable <;>
        simpa [step, dispatch, rawHandler, save_logs, hw,
          ShellError.message] using h
    | refresh =>
      cases hl : env.engine.ledger <;>
        simpa [step, dispatch, rawHandler, refresh_blockchain_data, hl] using h
    | search =>
      simpa [step, dispatch, rawHandler, show_search_dialog] using h
  | editUrl v => simpa [step, setUrlVar] using h
  | editMaxPages v => simpa [step, setMaxPagesVar] using h
  | engineLog l => simpa [step, onEngineLog] using h
  | engineDone out =>
    have h2 : s.runningThreads ≤ 1 := by rw [h]; split <;> omega
    cases out <;> simp [step, onEngineFinished] <;> omega

/-- The session invariant holds along any fold of steps from a state that
satisfies it. -/
theorem foldl_step_sessionInv (l : List Event) (s : ShellState)
    (h : sessionInv s) :
    sessionInv (l.foldl (fun s ev => step ev s) s) := by
  induction l generalizing s with
  | nil => simpa using h
  | cons e t ih => exact ih _ (step_preserves_sessionInv e s h)

/-- Every reachable shell state satisfies the session invariant. -/
theorem run_sessionInv (evs : List Event) : sessionInv (run evs) :=
  foldl_step_sessionInv evs initState (by simp [sessionInv, initState])

/-! ### Claim theorems -/

/-- C1: for every call to startScraping with a non-empty url string and an
integer maxPages strictly greater than 0, when the session state is Idle,
the call transitions the session state from Idle to Running and disables
the Start control. -/
theorem startScraping_valid_input_starts (env : Env) (s : ShellState) (n : Int)
    (hIdle : s.sessionState = SessionState.Idle) (hurl : s.url_var ≠ "")
    (hn : parseInt s.max_pages_var = some n) (hpos : 0 < n) :
    (dispatch Action.start env s).1.sessionState = SessionState.Running ∧
    (dispatch Action.start env s).1.startEnabled = false := by
  have h : start_scraping s = Except.ok ({ s with
      sessionState := SessionState.Running
      startEnabled := false
      stopEnabled := true
      log_text := s.log_text ++ ["session started"]
      runningThreads := s.runningThreads + 1
      lastRequest := some { url := s.url_var, maxPages := n } }, []) := by
    unfold start_scraping
    rw [if_neg (by simp [hIdle]), if_neg hurl]
    simp only [hn]
    rw [if_neg (by omega)]
  simp [dispatch, rawHandler, h]

/-- C1 witness: pressing Start on the freshly constructed shell, whose
default inputs are valid, moves the session to Running with Start
disabled. -/
theorem startScraping_valid_input_starts_witness :
    (dispatch Action.start env0 initState).1.sessionState =
      SessionState.Running ∧
    (dispatch Action.start env0 initState).1.startEnabled = false :=
  startScraping_valid_input_starts env0 initState 10 rfl (by decide)
    (by decide) (by decide)

/-- C2 counterexample: a call to startScraping with an empty url made while
the session state is Running does not raise ValidationError; per the
specification the call is a no-op because Start is disabled outside Idle,
so the raw handler returns ok with no notice.  The claim as stated, which
quantifies over every call with an empty url, is therefore false at this
input; only its restriction to Idle states holds. -/
theorem startScraping_running_empty_url_no_error :
    start_scraping runningEmptyUrl = Except.ok (runningEmptyUrl, []) ∧
    dispatch Action.start env0 runningEmptyUrl = (runningEmptyUrl, []) :=
  ⟨rfl, rfl⟩

/-- C2 (amended): for every call to startScraping made while the session
state is Idle, where the url is empty or maxPages is not a positive
integer, the call raises ValidationError, surfaced as a notice, and the
session state after the call equals the session state before the call. -/
theorem startScraping_invalid_input_rejected (env : Env) (s : ShellState)
    (hIdle : s.sessionState = SessionState.Idle)
    (hbad : s.url_var = "" ∨ parseInt s.max_pages_var = none ∨
      ∃ n : Int, parseInt s.max_pages_var = some n ∧ n ≤ 0) :
    ∃ m, start_scraping s = Except.error (ShellError.validationErr m) ∧
      dispatch Action.start env s = (s, ["ValidationError: " ++ m]) := by
  have key : ∃ m, start_scraping s = Except.error (ShellError.validationErr m) := by
    by_cases hu : s.url_var = ""
    · refine ⟨"url is empty", ?_⟩
      unfold start_scraping
      rw [if_neg (by simp [hIdle]), if_pos hu]
    · refine ⟨"maxPages is not a positive integer", ?_⟩
      unfold start_scraping
      rw [if_neg (by simp [hIdle]), if_neg hu]
      rcases hbad with h2 | h2 | ⟨n, hn, hle⟩
      · exact absurd h2 hu
      · simp only [h2]
      · simp only [hn]
        rw [if_pos hle]
  rcases key with ⟨m, hm⟩
  exact ⟨m, hm, dispatch_start_of_error env s (ShellError.validationErr m) hm⟩

/-- C2 witness: on the constructed shell with the url field cleared, Start
raises ValidationError and leaves the state unchanged. -/
theorem startScraping_invalid_input_rejected_witness :
    ∃ m, start_scraping idleEmptyUrl =
        Except.error (ShellError.validationErr m) ∧
      dispatch Action.start env0 idleEmptyUrl =
        (idleEmptyUrl, ["ValidationError: " ++ m]) :=
  startScraping_invalid_input_rejected env0 idleEmptyUrl rfl (Or.inl rfl)

/-- C3: every invocation of onEngineFinished, on a success result as well
as on an error, ends with the session state Idle; on an error a
non-blocking notice carrying the error message is produced and the
callback returns normally (the shell does not crash), while a success
produces no notice. -/
theorem onEngineFinished_always_idle (out : EngineOutcome) (s : ShellState)
    (m : String) :
    (onEngineFinished out s).1.sessionState = SessionState.Idle ∧
    (onEngineFinished (EngineOutcome.failure m) s).2 = ["EngineError: " ++ m] ∧
    (onEngineFinished (EngineOutcome.success m) s).2 = [] := by
  refine ⟨?_, rfl, rfl⟩
  cases out <;> rfl

/-- C4: in every reachable state of the shell at most one scraping session
is running (the count of live background scraping paths is at most one),
and a call to startScraping made while the session state is not Idle is a
no-op that changes nothing and produces no notice. -/
theorem single_session_and_start_noop (evs : List Event) (env : Env) :
    (run evs).runningThreads ≤ 1 ∧
    ((run evs).sessionState ≠ SessionState.Idle →
      dispatch Action.start env (run evs) = (run evs, [])) := by
  constructor
  · have h := run_sessionInv evs
    unfold sessionInv at h
    rw [h]
    split <;> omega
  · intro hne
    have h : start_scraping (run evs) = Except.ok (run evs, []) := by
      unfold start_scraping
      rw [if_pos hne]
    simp [dispatch, rawHandler, h]

/-- C4 witness: after the trace that starts a session, the state is
Running, the thread bound holds, and a further Start press changes
nothing. -/
theorem single_session_and_start_noop_witness :
    (run demoTrace).runningThreads ≤ 1 ∧
    dispatch Action.start env0 (run demoTrace) = (run demoTrace, []) :=
  ⟨(single_session_and_start_noop demoTrace env0).1,
    (single_session_and_start_noop demoTrace env0).2 (by decide)⟩

/-- C5: every call to stopScraping made while the session state is Idle
raises no error (the raw handler returns ok) and leaves the entire shell
state unchanged, with no notice produced. -/
theorem stopScraping_idle_noop (env : Env) (s : ShellState)
    (h : s.sessionState = SessionState.Idle) :
    stop_scraping s = Except.ok (s, []) ∧
    dispatch Action.stop env s = (s, []) := by
  have h1 : stop_scraping s = Except.ok (s, []) := by
    unfold stop_scraping
    rw [if_neg (by simp [h])]
  exact ⟨h1, by simp [dispatch, rawHandler, h1]⟩

/-- C5 witness: Stop on the freshly constructed (Idle) shell changes
nothing and raises no error. -/
theorem stopScraping_idle_noop_witness :
    stop_scraping initState = Except.ok (initState, []) ∧
    dispatch Action.stop env0 initState = (initState, []) :=
  stopScraping_idle_noop env0 initState rfl

/-- C6: for every sequence of onEngineLog invocations, the log view holds
the previously rendered lines followed by the delivered lines in exactly
their arrival order. -/
theorem onEngineLog_arrival_order (lines : List String) (s : ShellState) :
    (deliverLogs lines s).log_text = s.log_text ++ lines := by
  induction lines generalizing s with
  | nil => simp [deliverLogs]
  | cons l t ih =>
    have hstep : deliverLogs (l :: t) s = deliverLogs t (onEngineLog l s) := rfl
    rw [hstep, ih]
    simp [onEngineLog]

/-- C7: every refresh of the blockchain view succeeds (the raw handler
never signals an error); the displayed rows afterwards equal the ledger
snapshot whenever the engine has one, independent of what was displayed
before (wholesale replacement); and when the engine has no ledger yet the
call leaves the rows alone and puts the display into the unavailable
state. -/
theorem refreshBlockchain_wholesale (env : Env) (s : ShellState) :
    (∃ r, rawHandler Action.refresh env s = Except.ok r) ∧
    (dispatch Action.refresh env s).1.blockchain_tree =
      (match env.engine.ledger with
       | some recs => recs
       | none => s.blockchain_tree) ∧
    (env.engine.ledger = none →
      dispatch Action.refresh env s =
        ({ s with blockchain_info := "Blockchain not initialized" }, [])) := by
  refine ⟨⟨(refresh_blockchain_data env.engine s, []), rfl⟩, ?_, ?_⟩
  · cases hl : env.engine.ledger <;>
      simp [dispatch, rawHandler, refresh_blockchain_data, hl]
  · intro hl
    simp [dispatch, rawHandler, refresh_blockchain_data, hl]

/-- C7 witness: refreshing against an engine with no ledger yet leaves the
rows alone, raises nothing, and shows the unavailable text. -/
theorem refreshBlockchain_wholesale_witness :
    dispatch Action.refresh env0 initState =
      ({ initState with blockchain_info := "Blockchain not initialized" }, []) :=
  (refreshBlockchain_wholesale env0 initState).2.2 rfl

/-- C8: for every operator action handler of the shell (start, stop,
report, export, save, refresh, search), every environment and every state,
the dispatch through the shell boundary returns a defined state and notice
list: either the raw handler succeeded and its result is returned, or the
raw handler signalled an error (ValidationError, EngineError or IOError)
and the boundary converts it into a notice with the state unchanged, so no
invocation propagates an exception out of the event loop. -/
theorem shell_boundary_catches_all (a : Action) (env : Env) (s : ShellState) :
    (∃ r, rawHandler a env s = Except.ok r ∧ dispatch a env s = r) ∨
    (∃ e, rawHandler a env s = Except.error e ∧
      dispatch a env s = (s, [e.message])) := by
  cases h : rawHandler a env s with
  | ok r => exact Or.inl ⟨r, rfl, by simp [dispatch, h]⟩
  | error e => exact Or.inr ⟨e, rfl, by simp [dispatch, h]⟩

/-- C9: at construction the Target URL field holds "https://example.com"
and the Max Pages field holds "10", and pressing Start without editing
submits exactly these defaults: the request dispatched to the engine is
that url with maxPages 10, and the session starts. -/
theorem construction_defaults_submitted (env : Env) :
    initState.url_var = "https://example.com" ∧
    initState.max_pages_var = "10" ∧
    (dispatch Action.start env initState).1.lastRequest =
      some { url := "https://example.com", maxPages := 10 } ∧
    (dispatch Action.start env initState).1.sessionState =
      SessionState.Running :=
  ⟨rfl, rfl, rfl, rfl⟩

/-- C10: the Max Pages widget is a free-text entry: any string the
operator types, numeric or not, reaches the shell state (and hence the
start handler) verbatim, and the positivity of maxPages is established
only by the validation inside startScraping, which rejects a non-integer
entry with ValidationError. -/
theorem maxPages_free_text_validated_in_start (v : String) (s : ShellState)
    (hIdle : s.sessionState = SessionState.Idle)
    (hurl : s.url_var ≠ "") (hbad : parseInt v = none) :
    (setMaxPagesVar v s).max_pages_var = v ∧
    ∃ m, start_scraping (setMaxPagesVar v s) =
      Except.error (ShellError.validationErr m) := by
  refine ⟨rfl, "maxPages is not a positive integer", ?_⟩
  unfold start_scraping
  rw [if_neg (by simp [setMaxPagesVar, hIdle])]
  rw [if_neg (by simpa [setMaxPagesVar] using hurl)]
  have hb : parseInt (setMaxPagesVar v s).max_pages_var = none := by
    simpa [setMaxPagesVar] using hbad
  simp only [hb]

/-- C10 witness: typing the non-numeric text "abc" into Max Pages reaches
the handler verbatim and Start rejects it with ValidationError. -/
theorem maxPages_free_text_validated_in_start_witness :
    (setMaxPagesVar "abc" initState).max_pages_var = "abc" ∧
    ∃ m, start_scraping (setMaxPagesVar "abc" initState) =
      Except.error (ShellError.validationErr m) :=
  maxPages_free_text_validated_in_start "abc" initState rfl (by decide)
    (by decide)

end WebScrapingGUI
